import Mathlib

/-!
# Evently seat-reservation core: shallow embedding and verification

This file embeds the seat reservation and release protocol of the Evently
backend (booking controller `lockSeats` / `confirmBooking` / `cancelBooking`,
the expiry-sweeper worker `cleanupExpiredBookings`, and the admission-control
middleware `rateLimiter` / `smartWaitingRoom` with its helpers
`checkHighDemandShow` / `checkSystemLoad`) as executable Lean functions over
an explicit relational-store state (`DB`), a distributed-lock-store state
(`Redis`), and a middleware lock-store state (`MwState`), and proves or
refutes the specification's claims about them.

Modelling conventions:
* timestamps are natural numbers (seconds); `now` is passed explicitly;
* a SQL transaction is modelled by returning the committed state: a branch
  that ends in `ROLLBACK` returns the input relational state unchanged,
  while lock-store (Redis) commands issued inside the `try` block are applied
  immediately, since Redis commands are not part of the SQL transaction;
* `seat_lock:${show_id}:${seat_id}` keys are modelled as `(show_id, seat_id)`
  pairs; Redis `SET key val EX ttl NX` succeeds exactly when the key is absent.
-/

/-- Seat status of a `show_seats` row (`seat_status` enum). -/
inductive SeatStatus
  | AVAILABLE
  | LOCKED
  | BOOKED
deriving DecidableEq, Repr

/-- Booking status (`booking_status` enum). -/
inductive BookingStatus
  | PENDING
  | CONFIRMED
  | CANCELLED
deriving DecidableEq, Repr

/-- A `show_seats` row: composite key (show_id, seat_id), status, optional
owning booking, optional lock timestamp. -/
structure ShowSeat where
  show_id : Nat
  seat_id : Nat
  status : SeatStatus
  booking_id : Option Nat
  locked_at : Option Nat
deriving DecidableEq, Repr

/-- A `bookings` row. -/
structure Booking where
  booking_id : Nat
  user_id : Nat
  show_id : Nat
  status : BookingStatus
  created_at : Nat
deriving DecidableEq, Repr

/-- The relational store: the tables the reservation core touches.
`shows` is the set of existing show ids, `seats` the set of valid venue seat
ids (the `seats` table), `nextBookingId` models the serial `booking_id`
column. -/
structure DB where
  shows : List Nat
  seats : List Nat
  showSeats : List ShowSeat
  bookings : List Booking
  nextBookingId : Nat
deriving DecidableEq, Repr

/-- A distributed seat-lock key `seat_lock:${show_id}:${seat_id}`. -/
abbrev LockKey := Nat × Nat

/-- The distributed lock store: key → holder user id. -/
structure Redis where
  locks : List (LockKey × Nat)
deriving DecidableEq, Repr

/-- Does the lock store hold a key? -/
def Redis.hasKey (r : Redis) (k : LockKey) : Bool :=
  r.locks.any (fun e => e.1 = k)

/-- `SET key val` (append; keys set with NX are fresh). -/
def Redis.set (r : Redis) (k : LockKey) (v : Nat) : Redis :=
  ⟨r.locks ++ [(k, v)]⟩

/-- `DEL key`: removes every entry for the key. -/
def Redis.del (r : Redis) (k : LockKey) : Redis :=
  ⟨r.locks.filter (fun e => e.1 ≠ k)⟩

/-- Batch `DEL` of a list of keys. -/
def delKeys (r : Redis) (ks : List LockKey) : Redis :=
  ks.foldl Redis.del r

/-- The 10-minute hold window, in seconds (`lockTimeout = 10 * 60`). -/
def lockTimeout : Nat := 10 * 60

/-- Result of `lockSeats` (HTTP outcome of POST /book/lock). -/
inductive LockResult
  | validationErr
  | showNotFound
  | conflict (failed_seats : List Nat)
  | invalidSeats (invalid_seats : List Nat)
  | success (booking_id : Nat) (locked_seats : List Nat)
deriving DecidableEq, Repr

/-- Outcome of the Redis NX acquisition loop in `lockSeats`: on success the
updated lock store and the acquired seats, on failure the lock store after
the already-acquired keys were deleted, together with the seats locked
before the failure. -/
inductive AcqResult
  | ok (redis : Redis) (locked : List Nat)
  | failed (redis : Redis) (locked : List Nat)
deriving DecidableEq, Repr

/-- The `for (const seatId of allAvailableSeats)` Redis NX loop of
`lockSeats`: try `SET seat_lock:show:seat user EX lockTimeout NX` for each
seat in order; on the first failure delete every key acquired in this call. -/
def acquireAll (sid uid : Nat) : List Nat → Redis → List LockKey → List Nat → AcqResult
  | [], r, _, locked => .ok r locked
  | s :: rest, r, keys, locked =>
    if r.hasKey (sid, s) then
      .failed (delKeys r keys) locked
    else
      acquireAll sid uid rest (r.set (sid, s) uid) (keys ++ [(sid, s)]) (locked ++ [s])

/-- One row of the bulk `INSERT ... ON CONFLICT (show_id, seat_id) DO UPDATE`
of `lockSeats`: upsert (sid, s) to LOCKED with owning booking and `NOW()`. -/
def upsertOne (l : List ShowSeat) (sid bid now s : Nat) : List ShowSeat :=
  if l.any (fun r => r.show_id = sid ∧ r.seat_id = s) then
    l.map (fun r =>
      if r.show_id = sid ∧ r.seat_id = s then
        { r with status := .LOCKED, booking_id := some bid, locked_at := some now }
      else r)
  else
    l ++ [⟨sid, s, .LOCKED, some bid, some now⟩]

/-- The whole bulk upsert over the locked seats. -/
def upsertLocked (l : List ShowSeat) (sid bid now : Nat) (seats : List Nat) : List ShowSeat :=
  seats.foldl (fun acc s => upsertOne acc sid bid now s) l

/-- `SELECT seat_id, status FROM show_seats WHERE show_id = $1 AND
seat_id = ANY($2) FOR UPDATE` of `lockSeats`. -/
def targetedRows (db : DB) (sid : Nat) (sids : List Nat) : List ShowSeat :=
  db.showSeats.filter (fun r => r.show_id = sid ∧ r.seat_id ∈ sids)

/-- `seatStatusResult.rows.filter(row => row.status !== 'AVAILABLE')`. -/
def unavailableOf (db : DB) (sid : Nat) (sids : List Nat) : List ShowSeat :=
  (targetedRows db sid sids).filter (fun r => r.status ≠ .AVAILABLE)

/-- `existingSeatIds = seatStatusResult.rows.map(row => row.seat_id)`. -/
def existingSeatIdsOf (db : DB) (sid : Nat) (sids : List Nat) : List Nat :=
  (targetedRows db sid sids).map (fun r => r.seat_id)

/-- `newSeats = seat_ids.filter(seatId => !existingSeatIds.includes(seatId))`. -/
def newSeatsOf (db : DB) (sid : Nat) (sids : List Nat) : List Nat :=
  sids.filter (fun s => ¬ s ∈ existingSeatIdsOf db sid sids)

/-- `SELECT seat_id FROM seats WHERE seat_id = ANY($1)` over the new seats. -/
def validNewSeatsOf (db : DB) (sid : Nat) (sids : List Nat) : List Nat :=
  db.seats.filter (fun s => s ∈ newSeatsOf db sid sids)

/-- `invalidSeats = newSeats.filter(id => !validNewSeats.includes(id))`. -/
def invalidSeatsOf (db : DB) (sid : Nat) (sids : List Nat) : List Nat :=
  (newSeatsOf db sid sids).filter (fun s => ¬ s ∈ validNewSeatsOf db sid sids)

/-- `allAvailableSeats = [...existingSeatIds, ...newSeats]`. -/
def allAvailableOf (db : DB) (sid : Nat) (sids : List Nat) : List Nat :=
  existingSeatIdsOf db sid sids ++ newSeatsOf db sid sids

/-- Embedding of `lockSeats` (booking controller). `seat_ids = none` models a
missing `seat_ids` field of the request body (`!seat_ids`). Returns the HTTP
outcome, the committed relational state, and the lock-store state. -/
def lockSeats (db : DB) (redis : Redis) (userId show_id : Nat)
    (seat_ids : Option (List Nat)) (now : Nat) : LockResult × DB × Redis :=
  match seat_ids with
  | none => (.validationErr, db, redis)
  | some sids =>
    if sids = [] then (.validationErr, db, redis)
    else if ¬ show_id ∈ db.shows then (.showNotFound, db, redis)
    else if unavailableOf db show_id sids ≠ [] then
      (.conflict ((unavailableOf db show_id sids).map (fun r => r.seat_id)), db, redis)
    else if invalidSeatsOf db show_id sids ≠ [] then
      (.invalidSeats (invalidSeatsOf db show_id sids), db, redis)
    else
      match acquireAll show_id userId (allAvailableOf db show_id sids) redis [] [] with
      | .failed r' lockedSeats =>
        (.conflict ((allAvailableOf db show_id sids).filter (fun s => ¬ s ∈ lockedSeats)),
         db, r')
      | .ok r' lockedSeats =>
        let bookingId := db.nextBookingId
        let db' : DB :=
          { db with
            bookings := db.bookings ++ [⟨bookingId, userId, show_id, .PENDING, now⟩]
            nextBookingId := bookingId + 1
            showSeats := upsertLocked db.showSeats show_id bookingId now lockedSeats }
        (.success bookingId lockedSeats, db', r')

/-- Update the status of every `bookings` row with the given id
(`UPDATE bookings SET status = $1 WHERE booking_id = $2`). -/
def setBookingStatus (bs : List Booking) (bid : Nat) (st : BookingStatus) : List Booking :=
  bs.map (fun b => if b.booking_id = bid then { b with status := st } else b)

/-- Result of `confirmBooking`. -/
inductive ConfirmResult
  | notFound
  | notPending
  | noLockedSeats
  | expired (expired_seats : List Nat)
  | confirmed (booking_id : Nat)
deriving DecidableEq, Repr

/-- Embedding of `confirmBooking` (booking controller).

Faithfulness note on the expired branch: the source issues
`UPDATE show_seats ... AVAILABLE`, `DEL` on the expired seats' Redis keys and
`UPDATE bookings ... CANCELLED`, and then executes `ROLLBACK` (not `COMMIT`),
so the two relational UPDATEs are discarded while the Redis deletions stand;
the committed relational state returned here is therefore the input `db`. -/
def confirmBooking (db : DB) (redis : Redis) (userId booking_id now : Nat) :
    ConfirmResult × DB × Redis :=
  -- SELECT ... FROM bookings WHERE booking_id = $1 AND user_id = $2
  match db.bookings.find? (fun b => b.booking_id = booking_id ∧ b.user_id = userId) with
  | none => (.notFound, db, redis)
  | some booking =>
    if booking.status ≠ .PENDING then (.notPending, db, redis)
    else
      -- SELECT seat_id, locked_at FROM show_seats WHERE booking_id = $1 AND status = 'LOCKED'
      let lockedRows := db.showSeats.filter
        (fun r => r.booking_id = some booking_id ∧ r.status = .LOCKED)
      if lockedRows = [] then (.noLockedSeats, db, redis)
      else
        -- new Date(null) is the epoch, hence getD 0
        let expiredRows := lockedRows.filter (fun r => r.locked_at.getD 0 + lockTimeout < now)
        if expiredRows ≠ [] then
          let redis' := delKeys redis (expiredRows.map (fun r => (booking.show_id, r.seat_id)))
          (.expired (expiredRows.map (fun r => r.seat_id)), db, redis')
        else
          let db' : DB :=
            { db with
              bookings := setBookingStatus db.bookings booking_id .CONFIRMED
              -- UPDATE show_seats SET status = 'BOOKED' WHERE booking_id = $2
              -- (locked_at is not touched by this UPDATE)
              showSeats := db.showSeats.map (fun r =>
                if r.booking_id = some booking_id then { r with status := .BOOKED } else r) }
          let redis' := delKeys redis (lockedRows.map (fun r => (booking.show_id, r.seat_id)))
          (.confirmed booking_id, db', redis')

/-- Result of `cancelBooking`. -/
inductive CancelResult
  | notFound
  | alreadyCancelled
  | cancelled (cancelled_seats : List Nat)
deriving DecidableEq, Repr

/-- Embedding of `cancelBooking` (booking controller). The only status it
rejects is CANCELLED, so a CONFIRMED booking proceeds through cancellation. -/
def cancelBooking (db : DB) (redis : Redis) (userId booking_id : Nat) :
    CancelResult × DB × Redis :=
  match db.bookings.find? (fun b => b.booking_id = booking_id ∧ b.user_id = userId) with
  | none => (.notFound, db, redis)
  | some booking =>
    if booking.status = .CANCELLED then (.alreadyCancelled, db, redis)
    else
      -- SELECT ... FROM seats JOIN show_seats ss ... WHERE ss.booking_id = $1
      let ownedRows := db.showSeats.filter (fun r => r.booking_id = some booking_id)
      let db' : DB :=
        { db with
          bookings := setBookingStatus db.bookings booking_id .CANCELLED
          showSeats := db.showSeats.map (fun r =>
            if r.booking_id = some booking_id then
              { r with status := .AVAILABLE, booking_id := none, locked_at := none }
            else r) }
      let redis' := delKeys redis (ownedRows.map (fun r => (booking.show_id, r.seat_id)))
      (.cancelled (ownedRows.map (fun r => r.seat_id)), db', redis')

/-- One iteration of the sweeper's per-booking loop body: fetch the booking's
`show_seats`, revert them to AVAILABLE (clearing owner and `locked_at`), set
the booking CANCELLED, and `DEL` the Redis lock keys of the fetched seats. -/
def cleanupOne (st : DB × Redis) (b : Booking) : DB × Redis :=
  let db := st.1
  let seatIds := (db.showSeats.filter (fun r => r.booking_id = some b.booking_id)).map
    (fun r => r.seat_id)
  let db' : DB :=
    { db with
      showSeats := db.showSeats.map (fun r =>
        if r.booking_id = some b.booking_id then
          { r with status := .AVAILABLE, booking_id := none, locked_at := none }
        else r)
      bookings := setBookingStatus db.bookings b.booking_id .CANCELLED }
  (db', delKeys st.2 (seatIds.map (fun s => (b.show_id, s))))

/-- Outcome of one sweep: either the single transaction committed, or an
error rolled the relational changes of the whole sweep back (the Redis
deletions already performed stand, since they are not transactional). -/
inductive SweepOutcome
  | committed (db : DB) (redis : Redis)
  | rolledBack (db : DB) (redis : Redis)
deriving DecidableEq, Repr

/-- The sweeper's `for (const booking of expiredBookings.rows)` loop with
fault injection: `faulty` is the set of booking ids whose processing throws
(modelled at the start of that booking's iteration). The whole loop runs in
ONE transaction (`BEGIN` before the scan, `COMMIT` after the loop), so a
throw rolls back every relational change of the sweep — `db0` is the
relational state at `BEGIN` — while Redis deletions already issued stand. -/
def sweepLoop (db0 : DB) : List Booking → DB × Redis → List Nat → SweepOutcome
  | [], st, _ => .committed st.1 st.2
  | b :: rest, st, faulty =>
    if b.booking_id ∈ faulty then .rolledBack db0 st.2
    else sweepLoop db0 rest (cleanupOne st b) faulty

/-- The sweeper's candidate scan:
`SELECT ... FROM bookings WHERE status = 'PENDING' AND created_at < NOW() - INTERVAL '10 minutes'`. -/
def expiredBookings (db : DB) (now : Nat) : List Booking :=
  db.bookings.filter (fun b => b.status = .PENDING ∧ b.created_at + lockTimeout < now)

/-- Embedding of `cleanupExpiredBookings` (cleanup worker) with fault
injection: a `faulty` booking id models a query error thrown while cleaning
that booking up. -/
def cleanupExpiredBookingsF (db : DB) (redis : Redis) (now : Nat) (faulty : List Nat) :
    SweepOutcome :=
  sweepLoop db (expiredBookings db now) (db, redis) faulty

/-- Embedding of `cleanupExpiredBookings` on a fault-free run. -/
def cleanupExpiredBookings (db : DB) (redis : Redis) (now : Nat) : DB × Redis :=
  (expiredBookings db now).foldl cleanupOne (db, redis)

/-! ## Admission-control middleware (waitingRoom.middleware.ts)

The middleware's Redis keys (`rate_limit:${clientId}`, `show_demand:${showId}`,
`system_load`, `waiting_room:${clientId}`, `can_proceed:${token}`) are
modelled by the constructors of `RKey`; the BullMQ `waitingRoomQueue` is
modelled by its waiting-job count plus a log of the clients enqueued during
the modelled run. Each lock-store round trip is an indexed operation; a fault
set injects a thrown error at given operation indices, embedding the
`try`/`catch` structure of the source. -/

/-- A middleware lock-store key. -/
inductive RKey
  | rateLimit (client : Nat)
  | showDemand (sid : Nat)
  | systemLoad
  | waitingRoom (client : Nat)
  | canProceed (token : Nat)
deriving DecidableEq, Repr

/-- A middleware lock-store entry: key, numeric value, recorded TTL. -/
structure MwEntry where
  key : RKey
  val : Nat
  ttl : Option Nat
deriving DecidableEq, Repr

/-- Middleware-visible state: lock-store entries and the deferred-admission
queue (waiting-job count and the clients enqueued during this run). -/
structure MwState where
  kv : List MwEntry
  queueWaiting : Nat
  queueAdds : List Nat
deriving DecidableEq, Repr

/-- `GET key` (numeric). -/
def MwState.get (st : MwState) (k : RKey) : Option Nat :=
  (st.kv.find? (fun e => e.key = k)).map (fun e => e.val)

/-- `INCR key`: returns the incremented value (1 if the key was absent). -/
def MwState.incr (st : MwState) (k : RKey) : Nat × MwState :=
  match st.kv.find? (fun e => e.key = k) with
  | none => (1, { st with kv := st.kv ++ [⟨k, 1, none⟩] })
  | some e =>
    (e.val + 1,
     { st with kv := st.kv.map (fun e2 => if e2.key = k then { e2 with val := e2.val + 1 } else e2) })

/-- `EXPIRE key t`. -/
def MwState.expire (st : MwState) (k : RKey) (t : Nat) : MwState :=
  { st with kv := st.kv.map (fun e => if e.key = k then { e with ttl := some t } else e) }

/-- `SETEX key t v`. -/
def MwState.setex (st : MwState) (k : RKey) (t v : Nat) : MwState :=
  if st.kv.any (fun e => e.key = k) then
    { st with kv := st.kv.map (fun e => if e.key = k then { e with val := v, ttl := some t } else e) }
  else
    { st with kv := st.kv ++ [⟨k, v, some t⟩] }

/-- `DEL key`. -/
def MwState.del (st : MwState) (k : RKey) : MwState :=
  { st with kv := st.kv.filter (fun e => e.key ≠ k) }

/-- One indexed lock-store round trip: if the index is in the fault set the
operation throws (state untouched by it), otherwise it runs. Returns the
result or the error, the state, and the next operation index. -/
def mwOp {α : Type} (faults : List Nat) (ix : Nat) (st : MwState)
    (act : MwState → α × MwState) : Except Unit α × MwState × Nat :=
  if ix ∈ faults then (.error (), st, ix + 1)
  else
    let r := act st
    (.ok r.1, r.2, ix + 1)

/-- Occurrence check on character lists (`String.includes` semantics). -/
def inclAux : List Char → List Char → Bool
  | [], sub => sub.isEmpty
  | c :: rest, sub => sub.isPrefixOf (c :: rest) || inclAux rest sub

/-- `path.includes(sub)` on strings. -/
def strIncludes (s sub : String) : Bool :=
  inclAux s.data sub.data

/-- Outcome of `rateLimiter`: pass through, or 429 "Too many requests". -/
inductive RlOutcome
  | next
  | tooMany
deriving DecidableEq, Repr

/-- Embedding of `rateLimiter`. `rateLimitPerMinute` models
`parseInt(process.env.RATE_LIMIT_PER_MINUTE || '60')`. The third component of
the result records whether a lock-store operation threw during the run. -/
def rateLimiter (faults : List Nat) (st : MwState) (client : Nat) (path : String)
    (rateLimitPerMinute : Nat) : RlOutcome × MwState × Bool :=
  match mwOp faults 0 st (fun s => s.incr (.rateLimit client)) with
  | (.error _, st', _) => (.next, st', true)
  | (.ok current, st', ix') =>
    let maxRequests :=
      if strIncludes path "/booking/" || strIncludes path "/lock" ||
         strIncludes path "/confirm" then 30
      else rateLimitPerMinute
    if current = 1 then
      match mwOp faults ix' st' (fun s => ((), s.expire (.rateLimit client) 60)) with
      | (.error _, st2, _) => (.next, st2, true)
      | (.ok _, st2, _) =>
        if maxRequests < current then (.tooMany, st2, false) else (.next, st2, false)
    else
      if maxRequests < current then (.tooMany, st', false) else (.next, st', false)

/-- Embedding of `checkHighDemandShow`: result, state, next op index, and
whether an op threw (the function catches its own errors and returns false,
"default to not activating waiting room on error"). The `multi().incr().expire()`
pipeline is one atomic operation. -/
def checkHighDemandShow (faults : List Nat) (ix : Nat) (st : MwState) (sid : Nat) :
    Bool × MwState × Nat × Bool :=
  match mwOp faults ix st (fun s => (s.get (.showDemand sid), s)) with
  | (.error _, st', ix') => (false, st', ix', true)
  | (.ok v, st', ix') =>
    let demandCount := v.getD 0
    if 50 < demandCount then (true, st', ix', false)
    else
      match mwOp faults ix' st'
        (fun s => ((), ((s.incr (.showDemand sid)).2).expire (.showDemand sid) 300)) with
      | (.error _, st2, ix2) => (false, st2, ix2, true)
      | (.ok _, st2, ix2) => (false, st2, ix2, false)

/-- Embedding of `checkSystemLoad` (threshold 200, 2-minute window). -/
def checkSystemLoad (faults : List Nat) (ix : Nat) (st : MwState) :
    Bool × MwState × Nat × Bool :=
  match mwOp faults ix st (fun s => (s.get .systemLoad, s)) with
  | (.error _, st', ix') => (false, st', ix', true)
  | (.ok v, st', ix') =>
    let loadCount := v.getD 0
    if 200 < loadCount then (true, st', ix', false)
    else
      match mwOp faults ix' st'
        (fun s => ((), ((s.incr .systemLoad).2).expire .systemLoad 120)) with
      | (.error _, st2, ix2) => (false, st2, ix2, true)
      | (.ok _, st2, ix2) => (false, st2, ix2, false)

/-- Outcome of `smartWaitingRoom`: pass through (`next()`), 429 "Please wait"
(marker present, not yet admitted), or 429 "High traffic" (just enqueued). -/
inductive WrOutcome
  | next
  | stillWaiting
  | placedInQueue (token : Nat)
deriving DecidableEq, Repr

/-- The body of `smartWaitingRoom` after the demand check activated the
waiting room: existing-token handling, queue-size check, enqueue + marker. -/
def waitingRoomCore (faults : List Nat) (ix : Nat) (st : MwState) (client : Nat)
    (maxConcurrentUsers freshToken : Nat) : WrOutcome × MwState × Bool :=
  match mwOp faults ix st (fun s => (s.get (.waitingRoom client), s)) with
  | (.error _, st1, _) => (.next, st1, true)
  | (.ok (some tok), st1, ix1) =>
    match mwOp faults ix1 st1 (fun s => (s.get (.canProceed tok), s)) with
    | (.error _, st2, _) => (.next, st2, true)
    | (.ok (some _), st2, ix2) =>
      match mwOp faults ix2 st2 (fun s => ((), s.del (.waitingRoom client))) with
      | (.error _, st3, _) => (.next, st3, true)
      | (.ok _, st3, ix3) =>
        match mwOp faults ix3 st3 (fun s => ((), s.del (.canProceed tok))) with
        | (.error _, st4, _) => (.next, st4, true)
        | (.ok _, st4, _) => (.next, st4, false)
    | (.ok none, st2, _) => (.stillWaiting, st2, false)
  | (.ok none, st1, ix1) =>
    match mwOp faults ix1 st1 (fun s => (s.queueWaiting, s)) with
    | (.error _, st2, _) => (.next, st2, true)
    | (.ok queueSize, st2, ix2) =>
      if maxConcurrentUsers ≤ queueSize then
        match mwOp faults ix2 st2
          (fun s => ((), { s with queueWaiting := s.queueWaiting + 1,
                                  queueAdds := s.queueAdds ++ [client] })) with
        | (.error _, st3, _) => (.next, st3, true)
        | (.ok _, st3, ix3) =>
          match mwOp faults ix3 st3
            (fun s => ((), s.setex (.waitingRoom client) 300 freshToken)) with
          | (.error _, st4, _) => (.next, st4, true)
          | (.ok _, st4, _) => (.placedInQueue freshToken, st4, false)
      else (.next, st2, false)

/-- Embedding of `smartWaitingRoom`. `maxConcurrentUsers` models
`parseInt(process.env.MAX_CONCURRENT_USERS || '500')`; `freshToken` models the
token generated from `Date.now()` and `Math.random()`. The third component of
the result records whether a lock-store operation threw during the run. -/
def smartWaitingRoom (faults : List Nat) (st : MwState) (client : Nat) (path : String)
    (showId : Option Nat) (maxConcurrentUsers freshToken : Nat) :
    WrOutcome × MwState × Bool :=
  if path == "/health" || "/api/v1/admin".data.isPrefixOf path.data then (.next, st, false)
  else if !(strIncludes path "/booking/" || strIncludes path "/shows/" ||
            strIncludes path "/lock" || strIncludes path "/confirm") then (.next, st, false)
  else
    let check :=
      match showId with
      | some sid => checkHighDemandShow faults 0 st sid
      | none => checkSystemLoad faults 0 st
    match check with
    | (activate, st1, ix1, threw1) =>
      if !activate then (.next, st1, threw1)
      else waitingRoomCore faults ix1 st1 client maxConcurrentUsers freshToken

/-! ## Lock-store cleanup lemmas

`lockSeats` deletes, on a failed NX acquisition, exactly the keys it acquired
earlier in the same call; since those keys were absent when acquired, the
lock store returns to its initial contents. -/

lemma delKeys_cons (r : Redis) (k : LockKey) (ks : List LockKey) :
    delKeys r (k :: ks) = delKeys (r.del k) ks := rfl

lemma delKeys_append_one (r : Redis) (ks : List LockKey) (k : LockKey) :
    delKeys r (ks ++ [k]) = (delKeys r ks).del k := by
  simp [delKeys, List.foldl_append]

lemma del_set_same (r : Redis) (k : LockKey) (v : Nat) :
    (r.set k v).del k = r.del k := by
  simp [Redis.set, Redis.del, List.filter_append]

lemma del_set_other (r : Redis) (k k' : LockKey) (v : Nat) (h : k ≠ k') :
    (r.set k v).del k' = (r.del k').set k v := by
  simp [Redis.set, Redis.del, List.filter_append, h]

lemma delKeys_set_del (ks : List LockKey) :
    ∀ (r : Redis) (k : LockKey) (v : Nat),
      (delKeys (r.set k v) ks).del k = (delKeys r ks).del k := by
  induction ks with
  | nil =>
    intro r k v
    simpa [delKeys] using del_set_same r k v
  | cons k' ks' ih =>
    intro r k v
    rw [delKeys_cons, delKeys_cons]
    by_cases h : k = k'
    · subst h
      rw [del_set_same]
    · rw [del_set_other r k k' v h]
      exact ih (r.del k') k v

lemma hasKey_del_false (r : Redis) (k k' : LockKey) (h : r.hasKey k = false) :
    (r.del k').hasKey k = false := by
  simp only [Redis.hasKey, Redis.del, List.any_eq_false, List.mem_filter] at h ⊢
  intro e he
  exact h e he.1

lemma hasKey_delKeys_false (ks : List LockKey) :
    ∀ (r : Redis) (k : LockKey), r.hasKey k = false → (delKeys r ks).hasKey k = false := by
  induction ks with
  | nil => intro r k h; simpa [delKeys] using h
  | cons k' ks' ih =>
    intro r k h
    rw [delKeys_cons]
    exact ih (r.del k') k (hasKey_del_false r k k' h)

lemma del_eq_self_of_not_hasKey (r : Redis) (k : LockKey) (h : r.hasKey k = false) :
    r.del k = r := by
  cases r with
  | mk l =>
    simp only [Redis.hasKey, List.any_eq_false] at h
    simp only [Redis.del, Redis.mk.injEq]
    apply List.filter_eq_self.mpr
    intro e he
    simpa using h e he

lemma acquireAll_failed_eq (sid uid : Nat) :
    ∀ (seats : List Nat) (r : Redis) (keys : List LockKey) (locked : List Nat)
      (r' : Redis) (l' : List Nat),
      acquireAll sid uid seats r keys locked = .failed r' l' → r' = delKeys r keys := by
  intro seats
  induction seats with
  | nil =>
    intro r keys locked r' l' h
    simp [acquireAll] at h
  | cons s rest ih =>
    intro r keys locked r' l' h
    rw [acquireAll] at h
    by_cases hk : r.hasKey (sid, s) = true
    · rw [if_pos hk] at h
      cases h
      rfl
    · rw [if_neg hk] at h
      have heq := ih _ _ _ _ _ h
      rw [heq, delKeys_append_one, delKeys_set_del,
          del_eq_self_of_not_hasKey _ _
            (hasKey_delKeys_false keys r (sid, s) (Bool.not_eq_true _ ▸ hk))]

/-- C1: a `lock` call grants every requested seat or none. (a) If any
targeted ShowSeat is not AVAILABLE, the relational transaction is aborted,
the response lists exactly the unavailable seat ids, and neither store
changes. (b) If any distributed-lock acquisition fails, every distributed
lock already acquired in the call is deleted (the lock store ends identical
to its initial contents), the transaction is aborted, and no Booking row or
ShowSeat mutation is committed. -/
theorem C1_lock_all_or_nothing :
    (∀ (db : DB) (redis : Redis) (uid sid : Nat) (sids : List Nat) (now : Nat),
      sids ≠ [] → sid ∈ db.shows → unavailableOf db sid sids ≠ [] →
      lockSeats db redis uid sid (some sids) now =
        (.conflict ((unavailableOf db sid sids).map (fun r => r.seat_id)), db, redis)) ∧
    (∀ (db : DB) (redis : Redis) (uid sid : Nat) (sids : List Nat) (now : Nat)
      (r' : Redis) (locked : List Nat),
      sids ≠ [] → sid ∈ db.shows →
      unavailableOf db sid sids = [] → invalidSeatsOf db sid sids = [] →
      acquireAll sid uid (allAvailableOf db sid sids) redis [] [] = .failed r' locked →
      lockSeats db redis uid sid (some sids) now =
        (.conflict ((allAvailableOf db sid sids).filter (fun s => ¬ s ∈ locked)),
         db, redis)) := by
  constructor
  · intro db redis uid sid sids now hne hshow hunav
    simp only [lockSeats]
    rw [if_neg hne, if_neg (by simpa using hshow), if_pos hunav]
  · intro db redis uid sid sids now r' locked hne hshow hunav hinv hacq
    have hr : r' = redis := by
      simpa [delKeys] using acquireAll_failed_eq sid uid _ redis [] [] r' locked hacq
    simp only [lockSeats]
    rw [if_neg hne, if_neg (by simpa using hshow), if_neg (by simpa using hunav),
        if_neg (by simpa using hinv), hacq, hr]

/-- Witness for C1: (a) a request containing a LOCKED seat is refused with
exactly that seat id and no state change; (b) a request whose seat is free
relationally but already held in the lock store is refused with the lock
store unchanged and nothing committed. -/
theorem C1_lock_all_or_nothing_witness :
    lockSeats ⟨[1], [], [⟨1, 2, .LOCKED, some 1, some 0⟩], [], 2⟩ ⟨[]⟩ 8 1 (some [2]) 50 =
      (.conflict [2], ⟨[1], [], [⟨1, 2, .LOCKED, some 1, some 0⟩], [], 2⟩, ⟨[]⟩) ∧
    lockSeats ⟨[1], [3], [], [], 1⟩ ⟨[((1, 3), 9)]⟩ 8 1 (some [3]) 50 =
      (.conflict [3], ⟨[1], [3], [], [], 1⟩, ⟨[((1, 3), 9)]⟩) := by
  constructor
  · have h := C1_lock_all_or_nothing.1 ⟨[1], [], [⟨1, 2, .LOCKED, some 1, some 0⟩], [], 2⟩
      ⟨[]⟩ 8 1 [2] 50 (by decide) (by decide) (by decide)
    exact h.trans (by decide)
  · have h := C1_lock_all_or_nothing.2 ⟨[1], [3], [], [], 1⟩ ⟨[((1, 3), 9)]⟩ 8 1 [3] 50
      ⟨[((1, 3), 9)]⟩ [] (by decide) (by decide) (by decide) (by decide) (by decide)
    exact h.trans (by decide)

/-- C8: a lock request whose seat id list is missing (`!seat_ids`) or empty
is rejected with a validation error before any relational or distributed
lock attempt, and neither store changes. -/
theorem C8_empty_seat_list_rejected (db : DB) (redis : Redis) (uid sid now : Nat)
    (seat_ids : Option (List Nat)) (h : seat_ids = none ∨ seat_ids = some []) :
    lockSeats db redis uid sid seat_ids now = (.validationErr, db, redis) := by
  rcases h with h | h <;> subst h <;> simp [lockSeats]

/-- Witness for C8 at a state with live data: the empty request changes
nothing. -/
theorem C8_empty_seat_list_rejected_witness :
    lockSeats ⟨[1], [2], [⟨1, 2, .AVAILABLE, none, none⟩], [], 1⟩ ⟨[]⟩ 8 1 (some []) 50 =
      (.validationErr, ⟨[1], [2], [⟨1, 2, .AVAILABLE, none, none⟩], [], 1⟩, ⟨[]⟩) :=
  C8_empty_seat_list_rejected _ _ 8 1 50 (some []) (Or.inr rfl)

/-- C10: confirming a PENDING booking that owns zero LOCKED ShowSeats fails
with the "No locked seats found" validation error, and both the booking and
every ShowSeat row are left unchanged (the transaction is rolled back). -/
theorem C10_confirm_without_locked_seats (db : DB) (redis : Redis) (uid bid now : Nat)
    (b : Booking)
    (hfind : db.bookings.find? (fun bb => bb.booking_id = bid ∧ bb.user_id = uid) = some b)
    (hstatus : b.status = .PENDING)
    (hnone : db.showSeats.filter (fun r => r.booking_id = some bid ∧ r.status = .LOCKED) = []) :
    confirmBooking db redis uid bid now = (.noLockedSeats, db, redis) := by
  simp only [confirmBooking, hfind]
  rw [if_neg (by simp [hstatus])]
  rw [hnone]
  simp

/-- Witness for C10: a PENDING booking whose seats were already reverted. -/
theorem C10_confirm_without_locked_seats_witness :
    confirmBooking ⟨[1], [2], [⟨1, 2, .AVAILABLE, none, none⟩], [⟨1, 7, 1, .PENDING, 0⟩], 2⟩
        ⟨[]⟩ 7 1 100 =
      (.noLockedSeats,
       ⟨[1], [2], [⟨1, 2, .AVAILABLE, none, none⟩], [⟨1, 7, 1, .PENDING, 0⟩], 2⟩, ⟨[]⟩) :=
  C10_confirm_without_locked_seats _ _ 7 1 100 ⟨1, 7, 1, .PENDING, 0⟩
    (by decide) (by decide) (by decide)

/-- C2 (code bug): a confirm attempt on a PENDING booking whose seat lock is
older than the 10-minute hold window reports expiry, but the source issues
its two relational UPDATEs (seats back to AVAILABLE, booking to CANCELLED)
and then executes `ROLLBACK`, so nothing is committed: the booking stays
PENDING and the seat stays LOCKED and owned, while the Expiry Sweeper on the
same state commits booking CANCELLED and seat AVAILABLE. The response text
"Booking has been cancelled" is therefore false of the stored state, and the
two paths do not converge. -/
theorem C2_confirm_expiry_rolls_back :
    confirmBooking ⟨[1], [2], [⟨1, 2, .LOCKED, some 1, some 0⟩], [⟨1, 7, 1, .PENDING, 0⟩], 2⟩
        ⟨[((1, 2), 7)]⟩ 7 1 700 =
      (.expired [2],
       ⟨[1], [2], [⟨1, 2, .LOCKED, some 1, some 0⟩], [⟨1, 7, 1, .PENDING, 0⟩], 2⟩, ⟨[]⟩) ∧
    cleanupExpiredBookings
        ⟨[1], [2], [⟨1, 2, .LOCKED, some 1, some 0⟩], [⟨1, 7, 1, .PENDING, 0⟩], 2⟩
        ⟨[((1, 2), 7)]⟩ 700 =
      (⟨[1], [2], [⟨1, 2, .AVAILABLE, none, none⟩], [⟨1, 7, 1, .CANCELLED, 0⟩], 2⟩, ⟨[]⟩) := by
  decide

/-- Counterexample to C3: confirming a fresh PENDING booking transitions its
seat LOCKED → BOOKED but does not clear `locked_at` (the UPDATE sets only
`status`), so afterwards a row has status BOOKED and `locked_at = some 0`,
refuting "locked_at is non-null if and only if status is LOCKED" and
"confirm's transition to BOOKED clears locked_at". -/
theorem C3_locked_at_iff_counterexample :
    confirmBooking ⟨[1], [2], [⟨1, 2, .LOCKED, some 1, some 0⟩], [⟨1, 7, 1, .PENDING, 0⟩], 2⟩
        ⟨[((1, 2), 7)]⟩ 7 1 100 =
      (.confirmed 1,
       ⟨[1], [2], [⟨1, 2, .BOOKED, some 1, some 0⟩], [⟨1, 7, 1, .CONFIRMED, 0⟩], 2⟩, ⟨[]⟩) := by
  decide

/-- Counterexample to C4: `cancelBooking` rejects only the CANCELLED status,
so it cancels a CONFIRMED booking — CONFIRMED is not terminal: the booking
transitions CONFIRMED → CANCELLED and its BOOKED seat is released. -/
theorem C4_confirmed_not_terminal_counterexample :
    cancelBooking ⟨[1], [2], [⟨1, 2, .BOOKED, some 1, some 0⟩], [⟨1, 7, 1, .CONFIRMED, 0⟩], 2⟩
        ⟨[]⟩ 7 1 =
      (.cancelled [2],
       ⟨[1], [2], [⟨1, 2, .AVAILABLE, none, none⟩], [⟨1, 7, 1, .CANCELLED, 0⟩], 2⟩, ⟨[]⟩) := by
  decide

/-- Counterexample to C5: with two expired PENDING bookings (ids 1, 2) and a
failure while cleaning booking 2, the whole sweep runs in one transaction,
so the failure rolls back booking 1's already-performed cleanup as well: the
relational store is exactly the initial one (booking 1 still PENDING, its
seat still LOCKED), while booking 1's Redis key — deleted inside the loop
before the failure — is already gone. The claim's per-booking transactions
and log-and-continue behaviour do not hold. -/
theorem C5_sweep_isolation_counterexample :
    cleanupExpiredBookingsF
        ⟨[1], [2, 3],
         [⟨1, 2, .LOCKED, some 1, some 0⟩, ⟨1, 3, .LOCKED, some 2, some 0⟩],
         [⟨1, 7, 1, .PENDING, 0⟩, ⟨2, 8, 1, .PENDING, 0⟩], 3⟩
        ⟨[((1, 2), 7), ((1, 3), 8)]⟩ 700 [2] =
      .rolledBack
        ⟨[1], [2, 3],
         [⟨1, 2, .LOCKED, some 1, some 0⟩, ⟨1, 3, .LOCKED, some 2, some 0⟩],
         [⟨1, 7, 1, .PENDING, 0⟩, ⟨2, 8, 1, .PENDING, 0⟩], 3⟩
        ⟨[((1, 3), 8)]⟩ := by
  decide

/-- Counterexample to C6: a booking-route request for show 9 whose demand
counter is 51 (> 50) activates the waiting room without incrementing the
counter, but because the deferred queue has fewer waiting entries than
MAX_CONCURRENT_USERS (0 < 500) the caller is NOT enqueued, no queue marker
is recorded, and the request passes straight through (`next()`), not a
deferred/retry signal. -/
theorem C6_over_threshold_passthrough_counterexample :
    smartWaitingRoom [] ⟨[⟨.showDemand 9, 51, some 300⟩], 0, []⟩ 4 "/api/v1/shows/9/lock"
        (some 9) 500 77 =
      (.next, ⟨[⟨.showDemand 9, 51, some 300⟩], 0, []⟩, false) := by
  decide

/-- Counterexample to C7: a lock request containing seat 5 — which has no
ShowSeat row for show 1 and is not a valid venue seat — together with seat 2
whose row is LOCKED is answered with the availability conflict on seat 2
(`failed_seats = [2]`); seat 5 is not reported as invalid anywhere in the
response, refuting the claim for requests that also contain an unavailable
seat (no seat is granted, though). -/
theorem C7_invalid_seat_not_reported_counterexample :
    lockSeats ⟨[1], [3], [⟨1, 2, .LOCKED, some 1, some 0⟩], [⟨1, 7, 1, .PENDING, 0⟩], 2⟩
        ⟨[]⟩ 8 1 (some [2, 5]) 50 =
      (.conflict [2],
       ⟨[1], [3], [⟨1, 2, .LOCKED, some 1, some 0⟩], [⟨1, 7, 1, .PENDING, 0⟩], 2⟩, ⟨[]⟩) := by
  decide

/-! ## Amended lock-timestamp invariant (C3) -/

/-- The amended `locked_at` invariant: non-null on LOCKED rows, null on
AVAILABLE rows (a BOOKED row is unconstrained, since confirm retains the
timestamp). -/
def SeatInvList (l : List ShowSeat) : Prop :=
  ∀ r ∈ l, (r.status = .LOCKED → r.locked_at ≠ none) ∧
    (r.status = .AVAILABLE → r.locked_at = none)

instance (l : List ShowSeat) : Decidable (SeatInvList l) := by
  unfold SeatInvList
  infer_instance

lemma seatInv_upsertOne (l : List ShowSeat) (sid bid now s : Nat) (h : SeatInvList l) :
    SeatInvList (upsertOne l sid bid now s) := by
  intro r hr
  unfold upsertOne at hr
  split at hr
  · rcases List.mem_map.mp hr with ⟨r0, hr0, hre⟩
    by_cases hc : r0.show_id = sid ∧ r0.seat_id = s
    · rw [if_pos hc] at hre
      cases hre
      exact ⟨fun _ => by simp, fun habs => by simp at habs⟩
    · rw [if_neg hc] at hre
      subst hre
      exact h _ hr0
  · rcases List.mem_append.mp hr with hr | hr
    · exact h r hr
    · simp only [List.mem_singleton] at hr
      subst hr
      exact ⟨fun _ => by simp, fun habs => by simp at habs⟩

lemma seatInv_upsertLocked (sid bid now : Nat) (seats : List Nat) :
    ∀ l, SeatInvList l → SeatInvList (upsertLocked l sid bid now seats) := by
  induction seats with
  | nil => intro l h; exact h
  | cons s rest ih =>
    intro l h
    have : upsertLocked l sid bid now (s :: rest) =
        upsertLocked (upsertOne l sid bid now s) sid bid now rest := rfl
    rw [this]
    exact ih _ (seatInv_upsertOne l sid bid now s h)

lemma seatInv_lockSeats (db : DB) (redis : Redis) (uid sid : Nat)
    (seat_ids : Option (List Nat)) (now : Nat) (h : SeatInvList db.showSeats) :
    SeatInvList (lockSeats db redis uid sid seat_ids now).2.1.showSeats := by
  rcases seat_ids with _ | sids
  · exact h
  · simp only [lockSeats]
    split
  
    · exact h
    split
    · exact h
    split
    · exact h
    split
    · exact h
    split
    · exact h
    · exact seatInv_upsertLocked sid db.nextBookingId now _ db.showSeats h

lemma seatInv_confirmBooking (db : DB) (redis : Redis) (uid bid now : Nat)
    (h : SeatInvList db.showSeats) :
    SeatInvList (confirmBooking db redis uid bid now).2.1.showSeats := by
  unfold confirmBooking
  dsimp only
  split
  · exact h
  · split
    · exact h
    split
    · exact h
    split
    · exact h
    · intro r hr
      rcases List.mem_map.mp hr with ⟨r0, hr0, hre⟩
      by_cases hc : r0.booking_id = some bid
      · rw [if_pos hc] at hre
        cases hre
        exact ⟨fun habs => by simp at habs, fun habs => by simp at habs⟩
      · rw [if_neg hc] at hre
        subst hre
        exact h _ hr0

lemma seatInv_cancelBooking (db : DB) (redis : Redis) (uid bid : Nat)
    (h : SeatInvList db.showSeats) :
    SeatInvList (cancelBooking db redis uid bid).2.1.showSeats := by
  unfold cancelBooking
  dsimp only
  split
  · exact h
  · split
    · exact h
    · intro r hr
      rcases List.mem_map.mp hr with ⟨r0, hr0, hre⟩
      by_cases hc : r0.booking_id = some bid
      · rw [if_pos hc] at hre
        cases hre
        exact ⟨fun habs => by simp at habs, fun _ => by simp⟩
      · rw [if_neg hc] at hre
        subst hre
        exact h _ hr0

lemma seatInv_cleanupOne (st : DB × Redis) (b : Booking) (h : SeatInvList st.1.showSeats) :
    SeatInvList (cleanupOne st b).1.showSeats := by
  intro r hr
  simp only [cleanupOne] at hr
  rcases List.mem_map.mp hr with ⟨r0, hr0, hre⟩
  by_cases hc : r0.booking_id = some b.booking_id
  · rw [if_pos hc] at hre
    cases hre
    exact ⟨fun habs => by simp at habs, fun _ => by simp⟩
  · rw [if_neg hc] at hre
    subst hre
    exact h _ hr0

lemma seatInv_sweepFold (bs : List Booking) :
    ∀ st : DB × Redis, SeatInvList st.1.showSeats →
      SeatInvList (bs.foldl cleanupOne st).1.showSeats := by
  induction bs with
  | nil => intro st h; exact h
  | cons b rest ih =>
    intro st h
    exact ih _ (seatInv_cleanupOne st b h)

/-- C3 (amended): in every state whose ShowSeat rows satisfy the amended
`locked_at` invariant — non-null on LOCKED rows, null on AVAILABLE rows —
each of the four operations (lock, confirm, cancel, sweep) preserves it.
The original biconditional fails only in that confirm's LOCKED → BOOKED
transition retains `locked_at` (see the counterexample), so BOOKED rows are
unconstrained. -/
theorem C3_locked_at_invariant_amended (db : DB) (redis : Redis)
    (uid sid bid now : Nat) (seat_ids : Option (List Nat))
    (h : SeatInvList db.showSeats) :
    SeatInvList (lockSeats db redis uid sid seat_ids now).2.1.showSeats ∧
    SeatInvList (confirmBooking db redis uid bid now).2.1.showSeats ∧
    SeatInvList (cancelBooking db redis uid bid).2.1.showSeats ∧
    SeatInvList (cleanupExpiredBookings db redis now).1.showSeats :=
  ⟨seatInv_lockSeats db redis uid sid seat_ids now h,
   seatInv_confirmBooking db redis uid bid now h,
   seatInv_cancelBooking db redis uid bid h,
   seatInv_sweepFold _ (db, redis) h⟩

/-- Witness for the amended C3 at a populated state. -/
theorem C3_locked_at_invariant_amended_witness :
    SeatInvList (lockSeats ⟨[1], [2, 3], [⟨1, 2, .LOCKED, some 1, some 0⟩], [⟨1, 7, 1, .PENDING, 0⟩], 2⟩
        ⟨[((1, 2), 7)]⟩ 7 1 (some [3]) 700).2.1.showSeats ∧
    SeatInvList (confirmBooking ⟨[1], [2, 3], [⟨1, 2, .LOCKED, some 1, some 0⟩], [⟨1, 7, 1, .PENDING, 0⟩], 2⟩
        ⟨[((1, 2), 7)]⟩ 7 1 700).2.1.showSeats ∧
    SeatInvList (cancelBooking ⟨[1], [2, 3], [⟨1, 2, .LOCKED, some 1, some 0⟩], [⟨1, 7, 1, .PENDING, 0⟩], 2⟩
        ⟨[((1, 2), 7)]⟩ 7 1).2.1.showSeats ∧
    SeatInvList (cleanupExpiredBookings ⟨[1], [2, 3], [⟨1, 2, .LOCKED, some 1, some 0⟩], [⟨1, 7, 1, .PENDING, 0⟩], 2⟩
        ⟨[((1, 2), 7)]⟩ 700).1.showSeats :=
  C3_locked_at_invariant_amended
    ⟨[1], [2, 3], [⟨1, 2, .LOCKED, some 1, some 0⟩], [⟨1, 7, 1, .PENDING, 0⟩], 2⟩
    ⟨[((1, 2), 7)]⟩ 7 1 1 700 (some [3]) (by decide)

/-! ## Amended terminal-status property (C4) -/

/-- Status of the `bookings` row with the given id (the unique such row in a
well-formed store). -/
def bookingStatusOf (db : DB) (bid : Nat) : Option BookingStatus :=
  (db.bookings.find? (fun b => b.booking_id = bid)).map (fun b => b.status)

lemma find?_setBookingStatus (l : List Booking) (bid bid2 : Nat) (st : BookingStatus) :
    (setBookingStatus l bid2 st).find? (fun b => b.booking_id = bid) =
      (l.find? (fun b => b.booking_id = bid)).map
        (fun b => if b.booking_id = bid2 then { b with status := st } else b) := by
  induction l with
  | nil => rfl
  | cons x xs ih =>
    simp only [setBookingStatus, List.map_cons] at *
    by_cases hx : x.booking_id = bid
    · rw [List.find?_cons_of_pos _ (by split <;> simpa using hx),
          List.find?_cons_of_pos _ (by simpa using hx)]
      rfl
    · rw [List.find?_cons_of_neg _ (by split <;> simpa using hx),
          List.find?_cons_of_neg _ (by simpa using hx)]
      exact ih

lemma cancelled_stays_lockSeats (db : DB) (redis : Redis) (uid sid : Nat)
    (seat_ids : Option (List Nat)) (now bid : Nat)
    (h : bookingStatusOf db bid = some .CANCELLED) :
    bookingStatusOf (lockSeats db redis uid sid seat_ids now).2.1 bid = some .CANCELLED := by
  obtain ⟨b, hfind, hstat⟩ := Option.map_eq_some'.mp h
  rcases seat_ids with _ | sids
  · exact h
  simp only [lockSeats]
  split
  · exact h
  split
  · exact h
  split
  · exact h
  split
  · exact h
  split
  · exact h
  · simp only [bookingStatusOf]
    rw [List.find?_append, hfind]
    simpa using hstat

lemma cancelled_stays_confirmBooking (db : DB) (redis : Redis) (uid bid2 now bid : Nat)
    (hnd : (db.bookings.map (fun b => b.booking_id)).Nodup)
    (h : bookingStatusOf db bid = some .CANCELLED) :
    bookingStatusOf (confirmBooking db redis uid bid2 now).2.1 bid = some .CANCELLED := by
  obtain ⟨b, hfind, hstat⟩ := Option.map_eq_some'.mp h
  unfold confirmBooking
  dsimp only
  split
  · exact h
  · rename_i booking hb
    split
    · exact h
    · rename_i hpending
      split
      · exact h
      split
      · exact h
      · simp only [bookingStatusOf]
        rw [find?_setBookingStatus, hfind]
        by_cases hcc : b.booking_id = bid2
        · exfalso
          have hbmem := List.mem_of_find?_eq_some hb
          have hbprop := List.find?_some hb
          simp only [decide_eq_true_eq] at hbprop
          have hmem := List.mem_of_find?_eq_some hfind
          have : b = booking :=
            List.inj_on_of_nodup_map hnd hmem hbmem (by rw [hcc, hbprop.1])
          rw [this] at hstat
          simp only [not_not] at hpending
          rw [hpending] at hstat
          cases hstat
        · simp [hcc, hstat]

lemma cancelled_stays_cancelBooking (db : DB) (redis : Redis) (uid bid2 bid : Nat)
    (h : bookingStatusOf db bid = some .CANCELLED) :
    bookingStatusOf (cancelBooking db redis uid bid2).2.1 bid = some .CANCELLED := by
  obtain ⟨b, hfind, hstat⟩ := Option.map_eq_some'.mp h
  unfold cancelBooking
  dsimp only
  split
  · exact h
  · split
    · exact h
    · simp only [bookingStatusOf]
      rw [find?_setBookingStatus, hfind]
      by_cases hcc : b.booking_id = bid2 <;> simp [hcc, hstat]

lemma cancelled_stays_cleanupOne (st : DB × Redis) (bk : Booking) (bid : Nat)
    (h : bookingStatusOf st.1 bid = some .CANCELLED) :
    bookingStatusOf (cleanupOne st bk).1 bid = some .CANCELLED := by
  obtain ⟨b, hfind, hstat⟩ := Option.map_eq_some'.mp h
  simp only [cleanupOne, bookingStatusOf]
  rw [find?_setBookingStatus, hfind]
  by_cases hcc : b.booking_id = bk.booking_id <;> simp [hcc, hstat]

lemma cancelled_stays_sweepFold (bs : List Booking) :
    ∀ (st : DB × Redis) (bid : Nat), bookingStatusOf st.1 bid = some .CANCELLED →
      bookingStatusOf (bs.foldl cleanupOne st).1 bid = some .CANCELLED := by
  induction bs with
  | nil => intro st bid h; exact h
  | cons bk rest ih =>
    intro st bid h
    exact ih _ bid (cancelled_stays_cleanupOne st bk bid h)

/-- C4 (amended): CANCELLED is terminal — in a store whose booking ids are
unique, a booking whose status is CANCELLED still has status CANCELLED after
any lock, confirm, cancel, or sweep operation with arbitrary arguments.
(CONFIRMED is not terminal: see the counterexample, where `cancelBooking`
cancels a CONFIRMED booking.) -/
theorem C4_cancelled_terminal_amended (db : DB) (redis : Redis)
    (uid sid bid2 now bid : Nat) (seat_ids : Option (List Nat))
    (hnd : (db.bookings.map (fun b => b.booking_id)).Nodup)
    (h : bookingStatusOf db bid = some .CANCELLED) :
    bookingStatusOf (lockSeats db redis uid sid seat_ids now).2.1 bid = some .CANCELLED ∧
    bookingStatusOf (confirmBooking db redis uid bid2 now).2.1 bid = some .CANCELLED ∧
    bookingStatusOf (cancelBooking db redis uid bid2).2.1 bid = some .CANCELLED ∧
    bookingStatusOf (cleanupExpiredBookings db redis now).1 bid = some .CANCELLED :=
  ⟨cancelled_stays_lockSeats db redis uid sid seat_ids now bid h,
   cancelled_stays_confirmBooking db redis uid bid2 now bid hnd h,
   cancelled_stays_cancelBooking db redis uid bid2 bid h,
   cancelled_stays_sweepFold _ (db, redis) bid h⟩

/-- Witness for the amended C4: booking 1 is CANCELLED and stays CANCELLED
through a lock of seat 2, a confirm and a cancel of PENDING booking 2, and a
sweep that expires booking 2. -/
theorem C4_cancelled_terminal_amended_witness :
    bookingStatusOf (lockSeats ⟨[1], [2], [⟨1, 2, .AVAILABLE, none, none⟩],
        [⟨1, 7, 1, .CANCELLED, 0⟩, ⟨2, 7, 1, .PENDING, 0⟩], 3⟩ ⟨[]⟩ 7 1 (some [2]) 700).2.1 1 =
      some .CANCELLED ∧
    bookingStatusOf (confirmBooking ⟨[1], [2], [⟨1, 2, .AVAILABLE, none, none⟩],
        [⟨1, 7, 1, .CANCELLED, 0⟩, ⟨2, 7, 1, .PENDING, 0⟩], 3⟩ ⟨[]⟩ 7 2 700).2.1 1 =
      some .CANCELLED ∧
    bookingStatusOf (cancelBooking ⟨[1], [2], [⟨1, 2, .AVAILABLE, none, none⟩],
        [⟨1, 7, 1, .CANCELLED, 0⟩, ⟨2, 7, 1, .PENDING, 0⟩], 3⟩ ⟨[]⟩ 7 2).2.1 1 =
      some .CANCELLED ∧
    bookingStatusOf (cleanupExpiredBookings ⟨[1], [2], [⟨1, 2, .AVAILABLE, none, none⟩],
        [⟨1, 7, 1, .CANCELLED, 0⟩, ⟨2, 7, 1, .PENDING, 0⟩], 3⟩ ⟨[]⟩ 700).1 1 =
      some .CANCELLED :=
  C4_cancelled_terminal_amended
    ⟨[1], [2], [⟨1, 2, .AVAILABLE, none, none⟩],
     [⟨1, 7, 1, .CANCELLED, 0⟩, ⟨2, 7, 1, .PENDING, 0⟩], 3⟩
    ⟨[]⟩ 7 1 2 700 1 (some [2]) (by decide) (by decide)

/-! ## Amended sweep semantics (C5) -/

lemma sweepLoop_fault_rolledBack (db0 : DB) :
    ∀ (bs : List Booking) (st : DB × Redis) (faulty : List Nat),
      (∃ b ∈ bs, b.booking_id ∈ faulty) →
      ∃ r', sweepLoop db0 bs st faulty = .rolledBack db0 r' := by
  intro bs
  induction bs with
  | nil =>
    intro st faulty h
    rcases h with ⟨b, hb, _⟩
    cases hb
  | cons bk rest ih =>
    intro st faulty h
    by_cases hf : bk.booking_id ∈ faulty
    · exact ⟨st.2, by simp [sweepLoop, hf]⟩
    · rcases h with ⟨b, hb, hbf⟩
      rcases List.mem_cons.mp hb with rfl | hb
      · exact absurd hbf hf
      · have := ih (cleanupOne st bk) faulty ⟨b, hb, hbf⟩
        simpa [sweepLoop, hf] using this

lemma sweepLoop_no_fault (db0 : DB) :
    ∀ (bs : List Booking) (st : DB × Redis),
      sweepLoop db0 bs st [] =
        .committed (bs.foldl cleanupOne st).1 (bs.foldl cleanupOne st).2 := by
  intro bs
  induction bs with
  | nil => intro st; rfl
  | cons bk rest ih =>
    intro st
    simpa [sweepLoop] using ih (cleanupOne st bk)

/-- C5 (amended): the Expiry Sweeper runs all candidate cleanups in ONE
relational transaction. (a) If a failure occurs while cleaning any expired
booking, the whole sweep is rolled back: the resulting relational state is
exactly the pre-sweep state (no booking — including ones already processed —
is cleaned; only Redis deletions already issued survive). (b) A fault-free
sweep commits the per-booking cleanup folded over every expired candidate. -/
theorem C5_sweep_single_transaction_amended :
    (∀ (db : DB) (redis : Redis) (now : Nat) (faulty : List Nat),
      (∃ b ∈ expiredBookings db now, b.booking_id ∈ faulty) →
      ∃ r', cleanupExpiredBookingsF db redis now faulty = .rolledBack db r') ∧
    (∀ (db : DB) (redis : Redis) (now : Nat),
      cleanupExpiredBookingsF db redis now [] =
        .committed (cleanupExpiredBookings db redis now).1
          (cleanupExpiredBookings db redis now).2) := by
  constructor
  · intro db redis now faulty h
    exact sweepLoop_fault_rolledBack db (expiredBookings db now) (db, redis) faulty h
  · intro db redis now
    exact sweepLoop_no_fault db (expiredBookings db now) (db, redis)

/-- Witness for the amended C5: two expired bookings, fault on the second —
the sweep reports rollback to the initial relational state. -/
theorem C5_sweep_single_transaction_amended_witness :
    (∃ r', cleanupExpiredBookingsF
        ⟨[1], [2, 3],
         [⟨1, 2, .LOCKED, some 1, some 0⟩, ⟨1, 3, .LOCKED, some 2, some 0⟩],
         [⟨1, 7, 1, .PENDING, 0⟩, ⟨2, 8, 1, .PENDING, 0⟩], 3⟩
        ⟨[((1, 2), 7), ((1, 3), 8)]⟩ 700 [2] =
      .rolledBack
        ⟨[1], [2, 3],
         [⟨1, 2, .LOCKED, some 1, some 0⟩, ⟨1, 3, .LOCKED, some 2, some 0⟩],
         [⟨1, 7, 1, .PENDING, 0⟩, ⟨2, 8, 1, .PENDING, 0⟩], 3⟩ r') ∧
    cleanupExpiredBookingsF
        ⟨[1], [2], [⟨1, 2, .LOCKED, some 1, some 0⟩], [⟨1, 7, 1, .PENDING, 0⟩], 2⟩
        ⟨[((1, 2), 7)]⟩ 700 [] =
      .committed
        (cleanupExpiredBookings
          ⟨[1], [2], [⟨1, 2, .LOCKED, some 1, some 0⟩], [⟨1, 7, 1, .PENDING, 0⟩], 2⟩
          ⟨[((1, 2), 7)]⟩ 700).1
        (cleanupExpiredBookings
          ⟨[1], [2], [⟨1, 2, .LOCKED, some 1, some 0⟩], [⟨1, 7, 1, .PENDING, 0⟩], 2⟩
          ⟨[((1, 2), 7)]⟩ 700).2 :=
  ⟨C5_sweep_single_transaction_amended.1
      ⟨[1], [2, 3],
       [⟨1, 2, .LOCKED, some 1, some 0⟩, ⟨1, 3, .LOCKED, some 2, some 0⟩],
       [⟨1, 7, 1, .PENDING, 0⟩, ⟨2, 8, 1, .PENDING, 0⟩], 3⟩
      ⟨[((1, 2), 7), ((1, 3), 8)]⟩ 700 [2] (by decide),
   C5_sweep_single_transaction_amended.2
      ⟨[1], [2], [⟨1, 2, .LOCKED, some 1, some 0⟩], [⟨1, 7, 1, .PENDING, 0⟩], 2⟩
      ⟨[((1, 2), 7)]⟩ 700⟩

/-- C7 (amended): a lock request containing a seat id with no ShowSeat row
for the show and no `seats`-table row aborts with nothing granted and
reports the invalid seat ids — provided no targeted existing ShowSeat is
unavailable; when some targeted seat is not AVAILABLE, the availability
conflict is reported first (still granting nothing) and the invalid id is
not mentioned (see the counterexample). -/
theorem C7_invalid_seat_amended (db : DB) (redis : Redis) (uid sid now s : Nat)
    (sids : List Nat) (hne : sids ≠ []) (hshow : sid ∈ db.shows)
    (hunav : unavailableOf db sid sids = [])
    (hs : s ∈ sids) (hnorow : ¬ s ∈ existingSeatIdsOf db sid sids)
    (hnoseat : ¬ s ∈ db.seats) :
    lockSeats db redis uid sid (some sids) now =
      (.invalidSeats (invalidSeatsOf db sid sids), db, redis) ∧
    s ∈ invalidSeatsOf db sid sids := by
  have hsnew : s ∈ newSeatsOf db sid sids := by
    simp [newSeatsOf, List.mem_filter, hs, hnorow]
  have hsinv : s ∈ invalidSeatsOf db sid sids := by
    simp only [invalidSeatsOf, List.mem_filter]
    refine ⟨hsnew, ?_⟩
    simp only [validNewSeatsOf, List.mem_filter, decide_eq_true_eq]
    intro hc
    exact hnoseat hc.1
  refine ⟨?_, hsinv⟩
  simp only [lockSeats]
  rw [if_neg hne, if_neg (by simpa using hshow), if_neg (by simpa using hunav),
      if_pos (List.ne_nil_of_mem hsinv)]

/-- Witness for the amended C7: a request for a single invalid seat id. -/
theorem C7_invalid_seat_amended_witness :
    lockSeats ⟨[1], [3], [], [], 1⟩ ⟨[]⟩ 8 1 (some [5]) 50 =
      (.invalidSeats (invalidSeatsOf ⟨[1], [3], [], [], 1⟩ 1 [5]), ⟨[1], [3], [], [], 1⟩, ⟨[]⟩) ∧
    5 ∈ invalidSeatsOf ⟨[1], [3], [], [], 1⟩ 1 [5] :=
  C7_invalid_seat_amended ⟨[1], [3], [], [], 1⟩ ⟨[]⟩ 8 1 50 5 [5]
    (by decide) (by decide) (by decide) (by decide) (by decide) (by decide)

/-- C6 (amended): on a booking-route request for a show whose demand counter
exceeds the threshold (and whose caller holds no queue marker), the counter
is NOT incremented further and the waiting-room logic runs; but the caller
is enqueued — with a 300-second-TTL queue marker recorded and a deferred
signal returned — only when the deferred-admission queue already holds at
least `maxConcurrentUsers` waiting entries; otherwise the request passes
straight through to the reservation path with no state change. -/
theorem C6_over_threshold_behaviour_amended (st : MwState) (client : Nat) (path : String)
    (sid maxCU tok d : Nat)
    (hpath : (path == "/health" || "/api/v1/admin".data.isPrefixOf path.data) = false)
    (hbook : (strIncludes path "/booking/" || strIncludes path "/shows/" ||
              strIncludes path "/lock" || strIncludes path "/confirm") = true)
    (hdem : st.get (.showDemand sid) = some d) (hgt : 50 < d)
    (hmark : st.get (.waitingRoom client) = none) :
    (st.queueWaiting < maxCU →
      smartWaitingRoom [] st client path (some sid) maxCU tok = (.next, st, false)) ∧
    (maxCU ≤ st.queueWaiting →
      smartWaitingRoom [] st client path (some sid) maxCU tok =
        (.placedInQueue tok,
         MwState.setex
           { st with queueWaiting := st.queueWaiting + 1, queueAdds := st.queueAdds ++ [client] }
           (.waitingRoom client) 300 tok, false)) := by
  have hcheck : checkHighDemandShow [] 0 st sid = (true, st, 1, false) := by
    simp [checkHighDemandShow, mwOp, hdem, hgt]
  constructor
  · intro hlt
    simp [smartWaitingRoom, hpath, hbook, hcheck, waitingRoomCore, mwOp, hmark,
          Nat.not_le.mpr hlt]
  · intro hge
    simp [smartWaitingRoom, hpath, hbook, hcheck, waitingRoomCore, mwOp, hmark, hge]

/-- Witness for the amended C6: demand 51 for show 9; with an empty queue the
request passes through; with 600 ≥ 500 waiting it is enqueued and marked. -/
theorem C6_over_threshold_behaviour_amended_witness :
    smartWaitingRoom [] ⟨[⟨.showDemand 9, 51, some 300⟩], 0, []⟩ 4 "/api/v1/shows/9/lock"
        (some 9) 500 77 =
      (.next, ⟨[⟨.showDemand 9, 51, some 300⟩], 0, []⟩, false) ∧
    smartWaitingRoom [] ⟨[⟨.showDemand 9, 51, some 300⟩], 600, []⟩ 4 "/api/v1/shows/9/lock"
        (some 9) 500 77 =
      (.placedInQueue 77,
       MwState.setex ⟨[⟨.showDemand 9, 51, some 300⟩], 601, [4]⟩ (.waitingRoom 4) 300 77,
       false) :=
  ⟨(C6_over_threshold_behaviour_amended ⟨[⟨.showDemand 9, 51, some 300⟩], 0, []⟩ 4
      "/api/v1/shows/9/lock" 9 500 77 51 (by decide) (by decide) (by decide) (by decide)
      (by decide)).1 (by decide),
   (C6_over_threshold_behaviour_amended ⟨[⟨.showDemand 9, 51, some 300⟩], 600, []⟩ 4
      "/api/v1/shows/9/lock" 9 500 77 51 (by decide) (by decide) (by decide) (by decide)
      (by decide)).2 (by decide)⟩

/-! ## Fail-open behaviour of the admission layer (C9) -/

lemma rateLimiter_threw_next (faults : List Nat) (st : MwState) (client : Nat)
    (path : String) (rl : Nat) (o : RlOutcome) (st2 : MwState)
    (h : rateLimiter faults st client path rl = (o, st2, true)) : o = .next := by
  unfold rateLimiter at h
  repeat' split at h
  all_goals try simp_all
  all_goals split at h <;> simp_all

lemma waitingRoomCore_threw_next (faults : List Nat) (ix : Nat) (st : MwState)
    (client maxCU tok : Nat) (o : WrOutcome) (st2 : MwState)
    (h : waitingRoomCore faults ix st client maxCU tok = (o, st2, true)) : o = .next := by
  unfold waitingRoomCore at h
  repeat' split at h
  all_goals simp_all

/-- C9: the admission layer fails open — whenever a lock-store operation
throws during a run of `rateLimiter` or of `smartWaitingRoom` (including
inside the demand-check helpers, which catch their own errors and default to
not activating the waiting room), the request is passed through (`next()`),
never rejected or deferred. -/
theorem C9_middleware_fail_open :
    (∀ (faults : List Nat) (st : MwState) (client : Nat) (path : String) (rl : Nat)
      (o : RlOutcome) (st2 : MwState),
      rateLimiter faults st client path rl = (o, st2, true) → o = .next) ∧
    (∀ (faults : List Nat) (st : MwState) (client : Nat) (path : String)
      (showId : Option Nat) (maxCU tok : Nat) (o : WrOutcome) (st2 : MwState),
      smartWaitingRoom faults st client path showId maxCU tok = (o, st2, true) → o = .next) := by
  constructor
  · exact rateLimiter_threw_next
  · intro faults st client path showId maxCU tok o st2 h
    unfold smartWaitingRoom at h
    dsimp only at h
    repeat' split at h
    all_goals
      first
        | exact waitingRoomCore_threw_next _ _ _ _ _ _ _ _ h
        | simp_all

/-- Witness for C9: a run of each middleware in which the first (resp. the
second) lock-store operation throws is passed through. -/
theorem C9_middleware_fail_open_witness :
    (rateLimiter [0] ⟨[], 0, []⟩ 4 "/api/v1/book/lock" 60 = (.next, ⟨[], 0, []⟩, true) ∧
      (RlOutcome.next : RlOutcome) = .next) ∧
    (smartWaitingRoom [1] ⟨[⟨.showDemand 9, 51, some 300⟩], 0, []⟩ 4 "/api/v1/shows/9/lock"
        (some 9) 500 77 = (.next, ⟨[⟨.showDemand 9, 51, some 300⟩], 0, []⟩, true) ∧
      (WrOutcome.next : WrOutcome) = .next) :=
  ⟨⟨by decide,
    C9_middleware_fail_open.1 [0] ⟨[], 0, []⟩ 4 "/api/v1/book/lock" 60 .next ⟨[], 0, []⟩
      (by decide)⟩,
   ⟨by decide,
    C9_middleware_fail_open.2 [1] ⟨[⟨.showDemand 9, 51, some 300⟩], 0, []⟩ 4
      "/api/v1/shows/9/lock" (some 9) 500 77 .next ⟨[⟨.showDemand 9, 51, some 300⟩], 0, []⟩
      (by decide)⟩⟩
